import Mathlib

/-!
Formal model of the nestor agentic orchestration engine: the data types and
operations of `nestor/llm.py`, `nestor/brain.py`, `nestor/memory.py` and
`nestor/tools/__init__.py`, embedded shallowly in Lean, together with
theorems about the retry policy, the confirmation state machine, the
bounded round loop and tool execution.

Modelling conventions:
- Python JSON values are the inductive `Nestor.Json`; dicts are association
  lists in insertion order.
- Machine time is `Nat` seconds since an arbitrary epoch; SQLite
  `datetime('now')` rows store such a timestamp.
- Fallible Python code returns `Except PyExc` values; an uncaught exception
  propagating out of a function is an `Except.error`.
- The LLM backend is an oracle: a function from the round number (and the
  request data) to the response `provider.chat` would produce, so a theorem
  quantifying over oracles covers every possible backend behaviour.
-/

namespace Nestor

/-- A parsed JSON value, as produced by `json.loads`. -/
inductive Json where
  | null : Json
  | bool : Bool → Json
  | num : Int → Json
  | str : String → Json
  | arr : List Json → Json
  | obj : List (String × Json) → Json

/-- `nestor.llm.ToolCall`: a single tool invocation requested by the model. -/
structure ToolCall where
  id : String
  name : String
  arguments : List (String × Json)

/-- `nestor.llm.LLMResponse`: normalised response from any provider. -/
structure LLMResponse where
  text : Option String := none
  tool_calls : Option (List ToolCall) := none

/-- The two model vendors whose SDK exception classes `_retry` names. -/
inductive Backend where
  | anthropicB : Backend
  | openaiB : Backend
deriving DecidableEq, Repr

/-- Python exceptions relevant to the orchestration engine. -/
inductive PyExc where
  | rateLimitError : Backend → PyExc
  | apiStatusError : Backend → PyExc
  | typeError : String → PyExc
  | keyError : String → PyExc
  | otherError : String → PyExc
deriving DecidableEq, Repr

/-- The exception classes caught by the `except` clause of `nestor.llm._retry`
(`anthropic.RateLimitError`, `openai.RateLimitError`, `anthropic.APIStatusError`,
`openai.APIStatusError`). -/
def isTransientExc : PyExc → Bool
  | .rateLimitError _ => true
  | .apiStatusError _ => true
  | _ => false

/-- `nestor.llm._MAX_RETRIES`. -/
def MAX_RETRIES : Nat := 3

/-- `nestor.llm._RETRY_BASE_DELAY` in whole seconds. -/
def RETRY_BASE_DELAY : Nat := 1

/-- Observable trace of one run of `nestor.llm._retry`: the value returned or
exception raised, how many times `coro_factory()` was awaited, and the
`asyncio.sleep` delays performed, in order. -/
structure RetryTrace (α : Type) where
  result : Except PyExc α
  attemptsMade : Nat
  sleeps : List Nat

/-- The `for attempt in range(1, retries + 1)` loop of `_retry`.  `remaining`
is the number of loop iterations still to come after the current one; on the
final attempt a transient failure breaks out and re-raises `last_exc`, and a
non-transient exception always propagates at once. -/
def retryAux {α : Type} (call : Nat → Except PyExc α) :
    Nat → Nat → List Nat → RetryTrace α
  | 0, attempt, sleeps =>
    match call attempt with
    | .ok v => ⟨.ok v, attempt, sleeps⟩
    | .error e => ⟨.error e, attempt, sleeps⟩
  | remaining + 1, attempt, sleeps =>
    match call attempt with
    | .ok v => ⟨.ok v, attempt, sleeps⟩
    | .error e =>
      if isTransientExc e then
        retryAux call remaining (attempt + 1)
          (sleeps ++ [RETRY_BASE_DELAY * 2 ^ (attempt - 1)])
      else ⟨.error e, attempt, sleeps⟩

/-- `nestor.llm._retry` at its default budget of `_MAX_RETRIES = 3` attempts.
`call k` is the outcome of the `k`-th `await coro_factory()` (1-based). -/
def pyRetry {α : Type} (call : Nat → Except PyExc α) : RetryTrace α :=
  retryAux call (MAX_RETRIES - 1) 1 []

/-- Python `\s` for the ASCII range: the characters collapsed by
`re.sub` and stripped by `str.strip`. -/
def pySpace (c : Char) : Bool :=
  c == ' ' || c == '\t' || c == '\n' || c == '\r' || c == '\x0b' || c == '\x0c'

/-- Python `str.strip()`. -/
def pyStrip (s : String) : String :=
  String.mk (((s.toList.dropWhile pySpace).reverse.dropWhile pySpace).reverse)

/-- Python `str.lower()` (ASCII case folding, which covers every string this
program compares). -/
def pyLower (s : String) : String :=
  String.mk (s.toList.map Char.toLower)

/-- Collapse adjacent spaces, the effect of `re.sub(r"\s+", " ", ...)` once
every whitespace character has been mapped to a space. -/
def collapseSpaces : List Char → List Char
  | [] => []
  | [c] => [c]
  | a :: b :: rest =>
    if a == ' ' && b == ' ' then collapseSpaces (b :: rest)
    else a :: collapseSpaces (b :: rest)

/-- `needle in hay` for Python substring containment. -/
def subListOf (needle : List Char) : List Char → Bool
  | [] => needle.isEmpty
  | c :: rest => needle.isPrefixOf (c :: rest) || subListOf needle rest

/-- Minimal JSON string escaping (backslash and double quote); the strings in
this development contain no control characters. -/
def jsonEscape (s : String) : String :=
  String.mk (s.toList.map (fun c =>
    if c == '\\' then ['\\', '\\']
    else if c == '"' then ['\\', '"']
    else [c])).flatten

mutual

/-- `json.dumps` with the default `", "` and `": "` separators, as used for
tool arguments and the persisted tool-call batch. -/
def Json.dumps : Json → String
  | .null => "null"
  | .bool true => "true"
  | .bool false => "false"
  | .num n => toString n
  | .str s => "\"" ++ jsonEscape s ++ "\""
  | .arr xs => "[" ++ Json.dumpsArr xs ++ "]"
  | .obj fs => "\x7b" ++ Json.dumpsObj fs ++ "\x7d"

/-- Comma-joined serialization of a JSON array's elements. -/
def Json.dumpsArr : List Json → String
  | [] => ""
  | [x] => Json.dumps x
  | x :: y :: rest => Json.dumps x ++ ", " ++ Json.dumpsArr (y :: rest)

/-- Comma-joined serialization of a JSON object's fields. -/
def Json.dumpsObj : List (String × Json) → String
  | [] => ""
  | [(k, v)] => "\"" ++ jsonEscape k ++ "\": " ++ Json.dumps v
  | (k, v) :: p :: rest =>
    "\"" ++ jsonEscape k ++ "\": " ++ Json.dumps v ++ ", " ++ Json.dumpsObj (p :: rest)

end

/-- One row of the `conversations` table (`nestor.memory.MemoryStore`),
identified by its position in the append-only list, which realises the
`(timestamp, id)` insertion order. -/
structure ConvRow where
  user_id : Nat
  role : String
  content : String
  tool_name : Option String := none
deriving DecidableEq, Repr

/-- One row of the `pending_actions` table, with the serialized tool-call
batch already decoded (`json.dumps`/`json.loads` round-trip elided). -/
structure PendingRow where
  token : String
  tool_calls : List ToolCall
  created_at : Nat

/-- The SQLite state visible to the orchestrator: the `conversations` rows in
insertion order and the `pending_actions` rows keyed by user id. -/
structure MemSt where
  convRows : List ConvRow := []
  pendingRows : List (Nat × PendingRow) := []

/-- `MemoryStore.save_message`. -/
def MemSt.saveMessage (st : MemSt) (uid : Nat) (role content : String) : MemSt :=
  { st with convRows := st.convRows ++ [⟨uid, role, content, none⟩] }

/-- `MemoryStore.get_recent_messages`: the most recent `limit` rows for the
user, oldest-first. -/
def MemSt.getRecentMessages (st : MemSt) (uid : Nat) (limit : Nat) : List ConvRow :=
  let mine := st.convRows.filter (fun r => r.user_id == uid)
  mine.drop (mine.length - limit)

/-- `MemoryStore.save_pending_action`: `INSERT OR REPLACE` keyed on
`user_id`, stamping `created_at = datetime('now')`. -/
def MemSt.savePendingAction (st : MemSt) (uid : Nat) (token : String)
    (tcs : List ToolCall) (now : Nat) : MemSt :=
  { st with pendingRows :=
      (uid, ⟨token, tcs, now⟩) :: st.pendingRows.filter (fun p => p.1 ≠ uid) }

/-- `MemoryStore.get_pending_action`. -/
def MemSt.getPendingActionRow (st : MemSt) (uid : Nat) : Option PendingRow :=
  (st.pendingRows.find? (fun p => p.1 == uid)).map (·.2)

/-- `MemoryStore.delete_pending_action`. -/
def MemSt.deletePendingAction (st : MemSt) (uid : Nat) : MemSt :=
  { st with pendingRows := st.pendingRows.filter (fun p => p.1 ≠ uid) }

/-- A registered tool (`nestor.tools.BaseTool`): its declaration fields and
its `execute` body, which may raise. -/
structure ToolSpec where
  name : String
  description : String := ""
  parameters : Json := .obj []
  impl : List (String × Json) → Except PyExc String

/-- Lexicographic code-point comparison of character lists, Python's `<` on
strings. -/
def charListLt : List Char → List Char → Bool
  | [], [] => false
  | [], _ :: _ => true
  | _ :: _, [] => false
  | a :: as, b :: bs =>
    if a.toNat < b.toNat then true
    else if b.toNat < a.toNat then false
    else charListLt as bs

/-- Python `<` on strings. -/
def strLtB (a b : String) : Bool := charListLt a.toList b.toList

/-- Stable insertion of a string into a sorted list (`s` goes before the
first element not below it), realising Python `sorted`. -/
def insertStr (s : String) : List String → List String
  | [] => [s]
  | t :: rest => if strLtB t s then t :: insertStr s rest else s :: t :: rest

/-- Python `sorted` on strings. -/
def sortStrings (l : List String) : List String :=
  l.foldr insertStr []

/-- Python `repr` of an identifier-like string (no quotes or escapes inside),
as produced by the `!r` format spec on tool names. -/
def pyReprStr (s : String) : String :=
  "\x27" ++ s ++ "\x27"

/-- `", ".join(sorted(self._tools)) or "(none)"` from
`ToolRegistry.execute`. -/
def availableNames (tools : List ToolSpec) : String :=
  let joined := String.intercalate ", " (sortStrings (tools.map (·.name)))
  if joined.isEmpty then "(none)" else joined

/-- `nestor.tools.ToolRegistry.execute`: total — an unknown name or a raising
tool is rendered as an error string, never re-raised. -/
def registryExecute (tools : List ToolSpec) (name : String)
    (args : List (String × Json)) : String :=
  match tools.find? (fun t => t.name == name) with
  | none =>
    "Error: unknown tool " ++ pyReprStr name ++ ". Available tools: "
      ++ availableNames tools
  | some t =>
    match t.impl args with
    | .ok s => s
    | .error _ =>
      "Error: an unexpected error occurred while running " ++ pyReprStr name ++ "."

/-- `ToolRegistry.get_all_schemas`, via `BaseTool.schema`: the canonical
declaration shape `(name, description, parameters)`. -/
def getAllSchemas (tools : List ToolSpec) : List Json :=
  tools.map (fun t => Json.obj
    [("name", .str t.name), ("description", .str t.description),
     ("parameters", t.parameters)])

/-- `nestor.brain._MAX_TOOL_ROUNDS`. -/
def MAX_TOOL_ROUNDS : Nat := 8

/-- `nestor.brain._CONFIRMATION_TTL` in seconds (15 minutes). -/
def CONFIRMATION_TTL_SECONDS : Nat := 900

/-- `nestor.brain._CONFIRM_TOOLS`: the fixed sensitive set. -/
def CONFIRM_TOOLS : List String := ["send_email", "delete_calendar_event"]

/-- `nestor.brain._RESEARCH_KEYWORDS`. -/
def RESEARCH_KEYWORDS : List String :=
  ["look up", "lookup", "research", "search", "find", "check", "calendar",
   "website", "web", "source", "when does", "date", "schedule", "school"]

/-- `NestorBrain._looks_like_research_request`. -/
def looksLikeResearchRequest (message : String) : Bool :=
  let collapsed := String.mk (collapseSpaces
    ((pyLower message).toList.map (fun c => if pySpace c then ' ' else c)))
  let text := pyStrip collapsed
  if text.isEmpty then false
  else RESEARCH_KEYWORDS.any (fun k => subListOf k.toList text.toList)

/-- The affirmative tokens of `NestorBrain._is_yes_message`. -/
def yesTokens : List String :=
  ["yes", "y", "yep", "yeah", "sure", "ok", "do it",
   "go ahead", "proceed", "confirm", "approved", "send it"]

/-- The negative tokens of `NestorBrain._is_no_message`. -/
def noTokens : List String :=
  ["no", "n", "nope", "cancel", "deny", "reject", "abort",
   "don\x27t", "dont", "stop", "nevermind", "never mind"]

/-- `NestorBrain._is_yes_message`. -/
def isYesMessage (m : String) : Bool :=
  yesTokens.contains (pyLower (pyStrip m))

/-- `NestorBrain._is_no_message`. -/
def isNoMessage (m : String) : Bool :=
  noTokens.contains (pyLower (pyStrip m))

/-- `nestor.brain.PendingAction`. -/
structure PendingAction where
  token : String
  tool_calls : List ToolCall
  created_at : Nat

/-- `NestorBrain._get_pending_action`: reads the stored row, deletes and
discards it when strictly older than the TTL, otherwise rehydrates it.
Returns the resulting store state alongside. -/
def brainGetPendingAction (st : MemSt) (uid : Nat) (now : Nat) :
    Option PendingAction × MemSt :=
  match st.getPendingActionRow uid with
  | none => (none, st)
  | some row =>
    if now - row.created_at > CONFIRMATION_TTL_SECONDS then
      (none, st.deletePendingAction uid)
    else
      (some ⟨row.token, row.tool_calls, row.created_at⟩, st)

/-- One message dict of the running conversation, with Python's
present-iff-truthy keys made explicit: `content` is `none` when the key is
absent, `tool_calls` is `[]` when absent. -/
structure ChatMsg where
  role : String
  content : Option String := none
  tool_calls : List ToolCall := []
  tool_call_id : Option String := none

/-- One entry of the results list built by `NestorBrain._execute_tool_calls`. -/
structure ToolResultMsg where
  tool_call_id : String
  content : String

/-- `NestorBrain._execute_tool_calls`: one result per call, in order; the
registry renders failures as strings, so the
`except` branch around it (`json.dumps({"error": ...})`) never fires. -/
def executeToolCalls (tools : List ToolSpec) : List ToolCall → List ToolResultMsg
  | [] => []
  | tc :: rest =>
    ⟨tc.id, registryExecute tools tc.name tc.arguments⟩ :: executeToolCalls tools rest

/-- A tool-result message as appended to the running conversation. -/
def toolResultToMsg (r : ToolResultMsg) : ChatMsg :=
  { role := "tool", content := some r.content, tool_call_id := some r.tool_call_id }

/-- `NestorBrain._build_messages`. -/
def buildMessages (st : MemSt) (uid : Nat) (uname message : String) : List ChatMsg :=
  (st.getRecentMessages uid 30).map
      (fun r => { role := r.role, content := some r.content }) ++
    [{ role := "user", content := some ("[" ++ uname ++ "]: " ++ message) }]

/-- `NestorBrain._persist_exchange`. -/
def persistExchange (st : MemSt) (uid : Nat) (uname userMessage assistantMessage : String) :
    MemSt :=
  (st.saveMessage uid "user" ("[" ++ uname ++ "]: " ++ userMessage)).saveMessage
    uid "assistant" assistantMessage

/-- `response.tool_calls` read as Python does: `None` and `[]` coincide. -/
def respToolCalls (r : LLMResponse) : List ToolCall :=
  r.tool_calls.getD []

/-- `NestorBrain._assistant_message_from_response`: keys are set only when
the corresponding response field is truthy. -/
def assistantMessageFromResponse (r : LLMResponse) : ChatMsg :=
  { role := "assistant",
    content := match r.text with
      | some t => if t.isEmpty then none else some t
      | none => none,
    tool_calls := respToolCalls r }

/-- Display of one tool argument inside the confirmation prompt:
`arguments.get(key, "?")` interpolated into an f-string (`str()` of a JSON
value; the arguments staged in this development are strings). -/
def argDisplay (args : List (String × Json)) (key : String) : String :=
  match (args.find? (fun p => p.1 == key)).map (·.2) with
  | some (Json.str s) => s
  | some j => Json.dumps j
  | none => "?"

/-- One bullet line of the confirmation prompt built by
`NestorBrain._stage_pending_action`. -/
def stageLine (tc : ToolCall) : String :=
  if tc.name == "send_email" then
    "📧 Send email to **" ++ argDisplay tc.arguments "to" ++ "** — \""
      ++ argDisplay tc.arguments "subject" ++ "\""
  else if tc.name == "delete_calendar_event" then
    let eid := match (tc.arguments.find? (fun p => p.1 == "event_id")).map (·.2) with
      | some (Json.str s) => s
      | some j => Json.dumps j
      | none => argDisplay tc.arguments "query"
    "🗑️ Delete calendar event: " ++ eid
  else
    let args := Json.dumps (.obj tc.arguments)
    let args := if args.length > 200 then args.take 200 ++ "…" else args
    "• `" ++ tc.name ++ "`: " ++ args

/-- The full confirmation prompt returned by `_stage_pending_action`. -/
def stagePrompt (tcs : List ToolCall) : String :=
  String.intercalate "\n"
    (["Before I proceed, here\x27s what I\x27m about to do:"]
      ++ tcs.map stageLine ++ ["", "**Yes** or **No**?"])

/-- The token literal hard-coded at the `save_pending_action` call in
`NestorBrain._stage_pending_action` (brain.py line 168). -/
def STAGED_TOKEN : String := "yes"

/-- `NestorBrain._stage_pending_action`: persists the batch under the fixed
token and returns the confirmation prompt. -/
def stagePendingAction (st : MemSt) (uid : Nat) (tcs : List ToolCall) (now : Nat) :
    String × MemSt :=
  (stagePrompt tcs, st.savePendingAction uid STAGED_TOKEN tcs now)

/-- The token observable in the store right after a staging, mirroring
`_stage_pending_action` followed by `get_pending_action`. -/
def stagedTokenOf (st : MemSt) (uid : Nat) (tcs : List ToolCall) (now : Nat) :
    Option String :=
  (((stagePendingAction st uid tcs now).2).getPendingActionRow uid).map (·.token)

/-- `NestorBrain._format_confirmed_results`. -/
def formatConfirmedResults (tcs : List ToolCall) (results : List ToolResultMsg) : String :=
  String.intercalate "\n"
    ("Confirmed. I executed the requested actions:" ::
      (tcs.zip results).map (fun pr =>
        let content := pyStrip pr.2.content
        let content :=
          if content.length > 450 then content.take 450 ++ "... [truncated]" else content
        "- `" ++ pr.1.name ++ "`: " ++ content))

/-- The cancellation acknowledgement of `_maybe_handle_confirmation`. -/
def CANCEL_REPLY : String :=
  "Very good, Sir. Consider it banished to the void — along with the Captain\x27s last attempt at soufflé."

/-- Outcome of `NestorBrain._maybe_handle_confirmation`: either a reply was
produced (with the store updated and the listed tool calls executed), or the
message falls through to the agentic loop with the given store state. -/
inductive ConfirmOutcome where
  | handled (reply : String) (st : MemSt) (executed : List ToolCall)
  | fallthrough (st : MemSt)

/-- `NestorBrain._maybe_handle_confirmation`. -/
def maybeHandleConfirmation (tools : List ToolSpec) (st : MemSt) (uid : Nat)
    (uname message : String) (now : Nat) : ConfirmOutcome :=
  match brainGetPendingAction st uid now with
  | (none, st1) => .fallthrough st1
  | (some pending, st1) =>
    if isYesMessage message then
      let results := executeToolCalls tools pending.tool_calls
      let st2 := st1.deletePendingAction uid
      let reply := formatConfirmedResults pending.tool_calls results
      .handled reply (persistExchange st2 uid uname message reply) pending.tool_calls
    else if isNoMessage message then
      let st2 := st1.deletePendingAction uid
      .handled CANCEL_REPLY (persistExchange st2 uid uname message CANCEL_REPLY) []
    else
      .fallthrough (st1.deletePendingAction uid)

/-- The model backend as seen by the round loop: round number, running
message list, `tools` argument and `force_tool_use` argument, to the value
returned or exception raised by `self._llm.chat(...)`. -/
def ChatFn : Type :=
  Nat → List ChatMsg → Option (List Json) → Bool → Except PyExc LLMResponse

/-- The `tools` argument computed at the chat call of `handle_message`:
`None` on the last round, else `tool_defs or None`. -/
def chatToolsArg (tools : List ToolSpec) (round : Nat) : Option (List Json) :=
  let toolDefs := getAllSchemas tools
  if round == MAX_TOOL_ROUNDS then none
  else if toolDefs.isEmpty then none
  else some toolDefs

/-- The `force_tool_use` argument computed at the chat call of
`handle_message`: `False` on the last round, else
`bool(research_request and tool_defs and rounds == 1)`. -/
def chatForceArg (research : Bool) (tools : List ToolSpec) (round : Nat) : Bool :=
  if round == MAX_TOOL_ROUNDS then false
  else research && !(getAllSchemas tools).isEmpty && round == 1

/-- The nudge message appended when a research-looking request got a
text-only response early. -/
def NUDGE_MSG : ChatMsg :=
  { role := "user",
    content := some ("Please use the available research tools before answering. "
      ++ "Prefer official sources and provide exact dates when available.") }

/-- How the `while rounds < _MAX_TOOL_ROUNDS` loop ended. -/
inductive LoopOutcome where
  | finished (last : Option LLMResponse)
  | staged (reply : String)
  | raised (e : PyExc)

/-- Observable result of the round loop: its outcome, the running message
list, the store state, the number of `self._llm.chat` calls made, the tool
calls executed through the registry (in order), and the final value of
`rounds`. -/
structure LoopOut where
  outcome : LoopOutcome
  msgs : List ChatMsg
  st : MemSt
  chatCalls : Nat
  executed : List ToolCall
  rounds : Nat

/-- The round loop of `NestorBrain.handle_message`.  `fuel` counts the
iterations the `rounds < _MAX_TOOL_ROUNDS` guard still admits, so the loop is
entered with `fuel = MAX_TOOL_ROUNDS` and `rounds = 0`. -/
def runRounds (chatFn : ChatFn) (tools : List ToolSpec) (research : Bool)
    (uid : Nat) (uname message : String) (now : Nat) :
    Nat → Nat → Bool → List ChatMsg → MemSt → Nat → List ToolCall →
      Option LLMResponse → LoopOut
  | 0, rounds, _retried, msgs, st, calls, executed, last =>
    ⟨.finished last, msgs, st, calls, executed, rounds⟩
  | fuel + 1, rounds, retried, msgs, st, calls, executed, _last =>
    let rounds1 := rounds + 1
    match chatFn rounds1 msgs (chatToolsArg tools rounds1)
        (chatForceArg research tools rounds1) with
    | .error e => ⟨.raised e, msgs, st, calls + 1, executed, rounds1⟩
    | .ok resp =>
      let msgs1 := msgs ++ [assistantMessageFromResponse resp]
      let tcs := respToolCalls resp
      if tcs.isEmpty then
        if research && !(getAllSchemas tools).isEmpty && !retried
            && rounds1 < MAX_TOOL_ROUNDS - 1 then
          runRounds chatFn tools research uid uname message now
            fuel rounds1 true (msgs1 ++ [NUDGE_MSG]) st (calls + 1) executed (some resp)
        else
          ⟨.finished (some resp), msgs1, st, calls + 1, executed, rounds1⟩
      else if tcs.any (fun tc => CONFIRM_TOOLS.contains tc.name) then
        let staged := stagePendingAction st uid tcs now
        let st2 := persistExchange staged.2 uid uname message staged.1
        ⟨.staged staged.1, msgs1, st2, calls + 1, executed, rounds1⟩
      else
        let results := executeToolCalls tools tcs
        runRounds chatFn tools research uid uname message now
          fuel rounds1 retried (msgs1 ++ results.map toolResultToMsg) st
          (calls + 1) (executed ++ tcs) (some resp)

/-- The fallback apology returned when the loop ends without usable text. -/
def FALLBACK_TEXT : String :=
  "I do beg your pardon — I appear to have wandered into "
    ++ "the mental equivalent of a broom cupboard. Might I "
    ++ "trouble you to rephrase the request?"

/-- Python truthiness of `response.text if response else None`: `None` when
there was no response, `None` or `""` when the text is absent or empty. -/
def respTextFalsy : Option LLMResponse → Bool
  | none => true
  | some r =>
    match r.text with
    | none => true
    | some t => t.isEmpty

/-- `final_text` after the loop: the last response's text, or the fallback
apology when that is falsy. -/
def finalTextOf : Option LLMResponse → String
  | none => FALLBACK_TEXT
  | some r =>
    match r.text with
    | none => FALLBACK_TEXT
    | some t => if t.isEmpty then FALLBACK_TEXT else t

/-- Observable result of one `handle_message` invocation: the reply returned
(or the exception that escaped), the final store state, the number of chat
calls, the tool calls executed, and the loop trace when the loop ran. -/
structure HMOut where
  reply : Except PyExc String
  st : MemSt
  chatCalls : Nat
  executed : List ToolCall
  loop : Option LoopOut

/-- `NestorBrain.handle_message`: confirmation check, context assembly, the
round loop, and the final persist.  Note there is no `try`/`except` here: an
exception raised by the chat call propagates to the caller. -/
def handleMessage (tools : List ToolSpec) (chatFn : ChatFn) (st0 : MemSt)
    (uid : Nat) (uname message : String) (now : Nat) : HMOut :=
  match maybeHandleConfirmation tools st0 uid uname message now with
  | .handled reply st executed => ⟨.ok reply, st, 0, executed, none⟩
  | .fallthrough st1 =>
    let msgs := buildMessages st1 uid uname message
    let research := looksLikeResearchRequest message
    let lo := runRounds chatFn tools research uid uname message now
      MAX_TOOL_ROUNDS 0 false msgs st1 0 [] none
    match lo.outcome with
    | .raised e => ⟨.error e, lo.st, lo.chatCalls, lo.executed, some lo⟩
    | .staged reply => ⟨.ok reply, lo.st, lo.chatCalls, lo.executed, some lo⟩
    | .finished last =>
      let finalText := finalTextOf last
      ⟨.ok finalText, persistExchange lo.st uid uname message finalText,
        lo.chatCalls, lo.executed, some lo⟩

/-- The parameters (after `self`) of `AnthropicProvider.chat`. -/
def anthropicChatParams : List String := ["messages", "tools"]

/-- The parameters (after `self`) of `OpenAIProvider.chat`. -/
def openaiChatParams : List String := ["messages", "tools"]

/-- The keyword arguments at the `self._llm.chat(...)` call site of
`handle_message` (brain.py lines 281-285); `messages` is passed
positionally. -/
def brainChatCallKwargs : List String := ["tools", "force_tool_use"]

/-- Python call binding for that call site against a `chat` signature with
no `**kwargs`: every keyword must name a declared parameter not already
bound positionally. -/
def brainChatCallBinds (params : List String) : Bool :=
  brainChatCallKwargs.all (fun k => params.contains k && k != "messages")

/-- A concrete provider's `chat` seen through Python call binding: the call
raises `TypeError` before the coroutine body (and hence any backend request)
runs whenever a keyword does not bind; otherwise the backend `oracle`
answers. -/
def pyProviderChat (params : List String)
    (oracle : Nat → Except PyExc LLMResponse) : ChatFn :=
  fun round _msgs _tools _force =>
    if brainChatCallBinds params then oracle round
    else .error (.typeError
      "chat() got an unexpected keyword argument \x27force_tool_use\x27")

/-- `_ERROR_TEXT` of `nestor.telegram_handler`. -/
def TELEGRAM_ERROR_TEXT : String :=
  "I do beg your pardon — an unforeseen difficulty has arisen "
    ++ "on my end. Rest assured I shall look into it promptly."

/-- The `try`/`except Exception` wrapper of the Telegram text-message
handler: the reply sent to the user is the handler's result, or the fixed
error text when an exception escaped `handle_message`. -/
def telegramReplyOf (out : HMOut) : String :=
  match out.reply with
  | .ok r => r
  | .error _ => TELEGRAM_ERROR_TEXT

/-- `d.__contains__(k)` for a Python dict modelled as an association list. -/
def dictHasKey (d : List (String × Json)) (k : String) : Bool :=
  d.any (fun p => p.1 == k)

/-- `d[k]` as an optional lookup. -/
def dictGet (d : List (String × Json)) (k : String) : Option Json :=
  (d.find? (fun p => p.1 == k)).map (·.2)

/-- `d.get(k, default)`. -/
def dictGetD (d : List (String × Json)) (k : String) (dflt : Json) : Json :=
  (dictGet d k).getD dflt

/-- The default `{"type": "object", "properties": {}}` schema used by both
converters. -/
def defaultParamsSchema : Json :=
  .obj [("type", .str "object"), ("properties", .obj [])]

/-- `AnthropicProvider._convert_tools` on one declaration dict: keeps
anything with `input_schema`, rebuilds OpenAI-style `{type, function}`
dicts, and appends everything else unchanged. -/
def anthropicConvertTool (tool : List (String × Json)) :
    Except PyExc (List (String × Json)) :=
  if dictHasKey tool "input_schema" then .ok tool
  else if dictHasKey tool "function" then
    match dictGet tool "function" with
    | some (Json.obj func) =>
      match dictGet func "name" with
      | some nm => .ok
          [("name", nm),
           ("description", dictGetD func "description" (.str "")),
           ("input_schema", dictGetD func "parameters" defaultParamsSchema)]
      | none => .error (.keyError "name")
    | _ => .error (.typeError "function value is not a dict")
  else .ok tool

/-- `OpenAIProvider._convert_tools` on one declaration dict: keeps anything
with `function`, wraps everything else into `{type, function}` reading
`name`, `description` and `input_schema`/`parameters`. -/
def openaiConvertTool (tool : List (String × Json)) :
    Except PyExc (List (String × Json)) :=
  if dictHasKey tool "function" then .ok tool
  else
    match dictGet tool "name" with
    | some nm => .ok
        [("type", .str "function"),
         ("function", .obj
           [("name", nm),
            ("description", dictGetD tool "description" (.str "")),
            ("parameters", dictGetD tool "input_schema"
              (dictGetD tool "parameters" defaultParamsSchema))])]
    | none => .error (.keyError "name")

/-- A declaration in the canonical registry shape
`{name, description, parameters}` (and not already in a native shape). -/
def isCanonicalDecl (d : List (String × Json)) : Bool :=
  dictHasKey d "name" && dictHasKey d "description" && dictHasKey d "parameters"
    && !dictHasKey d "input_schema" && !dictHasKey d "function"

/-- The Anthropic wire shape, exactly as the converter's own first branch
recognises it: a dict carrying `input_schema`. -/
def isAnthropicShape (d : List (String × Json)) : Bool :=
  dictHasKey d "input_schema"

/-- The OpenAI wire shape, exactly as the converter's own first branch
recognises it: a dict carrying `function`. -/
def isOpenAIShape (d : List (String × Json)) : Bool :=
  dictHasKey d "function"

/-- `AnthropicProvider._parse_response` restricted to one `tool_use` content
block: the block's own id, name and input become the `ToolCall` verbatim. -/
def anthropicParseToolUse (blockId blockName : String)
    (blockInput : List (String × Json)) : ToolCall :=
  ⟨blockId, blockName, blockInput⟩

/-- The retry loop never makes more attempts than its budget admits. -/
theorem retryAux_attempts_le {α : Type} (call : Nat → Except PyExc α) :
    ∀ (remaining attempt : Nat) (sleeps : List Nat),
      (retryAux call remaining attempt sleeps).attemptsMade ≤ attempt + remaining := by
  intro remaining
  induction remaining with
  | zero =>
    intro attempt sleeps
    simp only [retryAux]
    cases call attempt <;> simp
  | succ n ih =>
    intro attempt sleeps
    simp only [retryAux]
    cases call attempt with
    | ok v => simp
    | error e =>
      by_cases h : isTransientExc e = true
      · simp only [h, if_true]
        calc (retryAux call n (attempt + 1) _).attemptsMade
            ≤ (attempt + 1) + n := ih _ _
          _ = attempt + (n + 1) := by omega
      · simp only [h, if_false, Bool.false_eq_true]
        simp

/-- C8: the retry wrapper makes at most `_MAX_RETRIES = 3` attempts; when all
three attempts fail with transient errors it sleeps 1s before attempt 2 and
2s before attempt 3 and re-raises the last transient error; a non-transient
error at attempt 1, or after one transient failure at attempt 2, propagates
at once with no further attempt — only the named rate-limit and API-status
classes are retried. -/
theorem retry_policy_behaviour {α : Type} (call : Nat → Except PyExc α) :
    (pyRetry call).attemptsMade ≤ MAX_RETRIES
    ∧ (∀ e1 e2 e3,
        call 1 = .error e1 → call 2 = .error e2 → call 3 = .error e3 →
        isTransientExc e1 = true → isTransientExc e2 = true → isTransientExc e3 = true →
        pyRetry call = ⟨.error e3, 3, [1, 2]⟩)
    ∧ (∀ e, call 1 = .error e → isTransientExc e = false →
        pyRetry call = ⟨.error e, 1, []⟩)
    ∧ (∀ e1 e2,
        call 1 = .error e1 → call 2 = .error e2 →
        isTransientExc e1 = true → isTransientExc e2 = false →
        pyRetry call = ⟨.error e2, 2, [1]⟩) := by
  refine ⟨?_, ?_, ?_, ?_⟩
  · exact retryAux_attempts_le call 2 1 []
  · intro e1 e2 e3 h1 h2 h3 t1 t2 t3
    simp [pyRetry, MAX_RETRIES, retryAux, h1, h2, h3, t1, t2, t3, RETRY_BASE_DELAY]
  · intro e h1 t1
    simp [pyRetry, MAX_RETRIES, retryAux, h1, t1]
  · intro e1 e2 h1 h2 t1 t2
    simp [pyRetry, MAX_RETRIES, retryAux, h1, h2, t1, t2, RETRY_BASE_DELAY]

/-- Witness for `retry_policy_behaviour`: three consecutive rate-limit
failures yield three attempts, sleeps of 1s and 2s, and the final error
re-raised. -/
theorem retry_policy_witness :
    pyRetry (fun _ => (.error (.rateLimitError .anthropicB) : Except PyExc Nat))
      = ⟨.error (.rateLimitError .anthropicB), 3, [1, 2]⟩ :=
  (retry_policy_behaviour
      (fun _ => (.error (.rateLimitError .anthropicB) : Except PyExc Nat))).2.1
    _ _ _ rfl rfl rfl rfl rfl rfl

/-- Deleting a user's pending action really removes it from the store. -/
theorem deletePending_lookup_none (st : MemSt) (uid : Nat) :
    (st.deletePendingAction uid).getPendingActionRow uid = none := by
  simp only [MemSt.deletePendingAction, MemSt.getPendingActionRow]
  have h : (st.pendingRows.filter (fun p => p.1 ≠ uid)).find? (fun p => p.1 == uid)
      = none := by
    rw [List.find?_eq_none]
    intro x hx
    have hne := (List.mem_filter.mp hx).2
    simp only [decide_not] at hne
    simpa using hne
  simp [h]

/-- C7: a pending action whose record is strictly older than the 15-minute
TTL is inert — for any incoming message the confirmation check deletes the
expired record and falls through, so the message is processed as a fresh
turn, never as a confirmation or cancellation. -/
theorem pending_action_ttl_expiry (tools : List ToolSpec) (st : MemSt)
    (uid : Nat) (un m : String) (now : Nat) (row : PendingRow)
    (hrow : st.getPendingActionRow uid = some row)
    (hexp : now - row.created_at > CONFIRMATION_TTL_SECONDS) :
    brainGetPendingAction st uid now = (none, st.deletePendingAction uid)
    ∧ maybeHandleConfirmation tools st uid un m now
        = .fallthrough (st.deletePendingAction uid)
    ∧ (st.deletePendingAction uid).getPendingActionRow uid = none := by
  have h1 : brainGetPendingAction st uid now = (none, st.deletePendingAction uid) := by
    simp [brainGetPendingAction, hrow, hexp]
  refine ⟨h1, ?_, deletePending_lookup_none st uid⟩
  simp [maybeHandleConfirmation, h1]

/-- Witness for `pending_action_ttl_expiry`: a pending action created at
second 0 is ignored and deleted when even an affirmative reply arrives at
second 1000 (16 minutes 40 seconds later). -/
theorem ttl_expiry_witness :
    brainGetPendingAction ⟨[], [(1, ⟨"yes", [⟨"1", "send_email", []⟩], 0⟩)]⟩ 1 1000
      = (none, MemSt.deletePendingAction ⟨[], [(1, ⟨"yes", [⟨"1", "send_email", []⟩], 0⟩)]⟩ 1)
    ∧ maybeHandleConfirmation [] ⟨[], [(1, ⟨"yes", [⟨"1", "send_email", []⟩], 0⟩)]⟩ 1 "U" "yes" 1000
      = .fallthrough (MemSt.deletePendingAction ⟨[], [(1, ⟨"yes", [⟨"1", "send_email", []⟩], 0⟩)]⟩ 1)
    ∧ (MemSt.deletePendingAction ⟨[], [(1, ⟨"yes", [⟨"1", "send_email", []⟩], 0⟩)]⟩ 1).getPendingActionRow 1
      = none :=
  pending_action_ttl_expiry [] _ 1 "U" "yes" 1000 ⟨"yes", [⟨"1", "send_email", []⟩], 0⟩
    rfl (by decide)

/-- C4 counterexample: with a pending action staged and the reply
`confirm 000000`, the code does not reject with a corrective message — it
silently deletes the pending action (the store afterwards holds none) and
falls through to treat the text as a fresh turn. -/
theorem wrong_token_not_rejected_pending_cleared :
    maybeHandleConfirmation []
        ⟨[], [(1, ⟨"yes", [⟨"1", "send_email", []⟩], 0⟩)]⟩ 1 "U" "confirm 000000" 10
      = .fallthrough
          (MemSt.deletePendingAction ⟨[], [(1, ⟨"yes", [⟨"1", "send_email", []⟩], 0⟩)]⟩ 1)
    ∧ (MemSt.deletePendingAction
          ⟨[], [(1, ⟨"yes", [⟨"1", "send_email", []⟩], 0⟩)]⟩ 1).getPendingActionRow 1
      = none :=
  ⟨rfl, rfl⟩

/-- C4 amended: a reply to a live pending action that is neither an
affirmative nor a negative token is not rejected and does not preserve the
pending action; the pending action is cleared and the message falls through
to the agentic loop as a fresh turn (the free-form yes/no design). -/
theorem mismatched_reply_clears_pending_and_falls_through
    (tools : List ToolSpec) (st : MemSt) (uid : Nat) (un m : String) (now : Nat)
    (p : PendingAction) (st1 : MemSt)
    (hp : brainGetPendingAction st uid now = (some p, st1))
    (hy : isYesMessage m = false) (hn : isNoMessage m = false) :
    maybeHandleConfirmation tools st uid un m now
      = .fallthrough (st1.deletePendingAction uid) := by
  simp [maybeHandleConfirmation, hp, hy, hn]

/-- Witness for `mismatched_reply_clears_pending_and_falls_through` at a
concrete store and the reply `confirm 999`. -/
theorem mismatched_reply_witness :
    maybeHandleConfirmation []
        ⟨[], [(7, ⟨"yes", [⟨"2", "delete_calendar_event", []⟩], 5⟩)]⟩ 7 "U" "confirm 999" 20
      = .fallthrough
          (MemSt.deletePendingAction
            ⟨[], [(7, ⟨"yes", [⟨"2", "delete_calendar_event", []⟩], 5⟩)]⟩ 7) :=
  mismatched_reply_clears_pending_and_falls_through [] _ 7 "U" "confirm 999" 20
    ⟨"yes", [⟨"2", "delete_calendar_event", []⟩], 5⟩ _ rfl rfl rfl

/-- C5 counterexample: two unrelated stagings (different users, batches and
times) store the same confirmation token `"yes"`, which is itself one of the
publicly documented affirmative tokens — the token is fully predictable from
user-visible state and the token space is a singleton, not ≥ 10^6. -/
theorem staged_token_constant :
    stagedTokenOf ⟨[], []⟩ 1 [⟨"1", "send_email", [("to", .str "a@b.com")]⟩] 0 = some "yes"
    ∧ stagedTokenOf ⟨[], []⟩ 2 [⟨"9", "delete_calendar_event", []⟩] 777 = some "yes"
    ∧ isYesMessage "yes" = true :=
  ⟨rfl, rfl, rfl⟩

/-- C5 amended: the code implements the free-form yes/no confirmation
design, not the numeric-token design — every staged pending action stores
the constant token `"yes"`, so the stored token carries no entropy and no
≥ 10^6 token space exists. -/
theorem staged_token_always_yes (st : MemSt) (uid : Nat) (tcs : List ToolCall) (now : Nat) :
    stagedTokenOf st uid tcs now = some STAGED_TOKEN := by
  simp [stagedTokenOf, stagePendingAction, MemSt.savePendingAction,
    MemSt.getPendingActionRow]

/-- C3: whenever the model response of a round contains at least one tool
call whose name is in the sensitive set, the loop stages the response's
whole batch as one pending action under the fixed token, persists the
confirmation prompt as the exchange, returns that prompt, and stops at once:
exactly one more chat call was made, and no tool call from this response
(or any later round) is executed. -/
theorem sensitive_tool_calls_staged_and_loop_stops
    (chatFn : ChatFn) (tools : List ToolSpec) (research : Bool)
    (uid : Nat) (un m : String) (now : Nat) (fuel rounds : Nat) (retried : Bool)
    (msgs : List ChatMsg) (st : MemSt) (calls : Nat) (executed : List ToolCall)
    (last : Option LLMResponse) (resp : LLMResponse)
    (hchat : chatFn (rounds + 1) msgs (chatToolsArg tools (rounds + 1))
        (chatForceArg research tools (rounds + 1)) = .ok resp)
    (hsens : (respToolCalls resp).any (fun tc => CONFIRM_TOOLS.contains tc.name) = true) :
    runRounds chatFn tools research uid un m now (fuel + 1) rounds retried msgs st
        calls executed last
      = ⟨.staged (stagePrompt (respToolCalls resp)),
         msgs ++ [assistantMessageFromResponse resp],
         persistExchange
           (st.savePendingAction uid STAGED_TOKEN (respToolCalls resp) now)
           uid un m (stagePrompt (respToolCalls resp)),
         calls + 1, executed, rounds + 1⟩ := by
  have hne : (respToolCalls resp).isEmpty = false := by
    cases h : respToolCalls resp with
    | nil => rw [h] at hsens; simp at hsens
    | cons a l => simp
  simp only [runRounds]
  rw [hchat]
  simp [hne, hsens, stagePendingAction]
  intro hall
  exfalso
  obtain ⟨x, hx, hpx⟩ := List.any_eq_true.mp hsens
  exact hall x hx (by simpa using hpx)

/-- Witness for `sensitive_tool_calls_staged_and_loop_stops`: a first-round
`send_email` request is staged, the prompt is persisted and returned, and
the loop ends after one chat call with nothing executed. -/
theorem sensitive_staging_witness :
    runRounds
        (fun _ _ _ _ => .ok ⟨none,
          some [⟨"1", "send_email", [("to", Json.str "a@b.com"), ("subject", Json.str "Hi")]⟩]⟩)
        [] false 1 "U" "send the mail" 0 8 0 false [] ⟨[], []⟩ 0 [] none
      = ⟨.staged (stagePrompt
            [⟨"1", "send_email", [("to", Json.str "a@b.com"), ("subject", Json.str "Hi")]⟩]),
         [] ++ [assistantMessageFromResponse ⟨none,
            some [⟨"1", "send_email", [("to", Json.str "a@b.com"), ("subject", Json.str "Hi")]⟩]⟩],
         persistExchange
           (MemSt.savePendingAction ⟨[], []⟩ 1 STAGED_TOKEN
             [⟨"1", "send_email", [("to", Json.str "a@b.com"), ("subject", Json.str "Hi")]⟩] 0)
           1 "U" "send the mail"
           (stagePrompt
             [⟨"1", "send_email", [("to", Json.str "a@b.com"), ("subject", Json.str "Hi")]⟩]),
         1, [], 1⟩ :=
  sensitive_tool_calls_staged_and_loop_stops _ [] false 1 "U" "send the mail" 0 7 0 false
    [] ⟨[], []⟩ 0 [] none
    ⟨none, some [⟨"1", "send_email", [("to", Json.str "a@b.com"), ("subject", Json.str "Hi")]⟩]⟩
    rfl rfl

/-- C1 counterexample: when the chat call raises the last transient error
(the retry budget inside `_retry` being exhausted), `handle_message` has no
`try`/`except` — the exception escapes instead of a fixed apologetic reply
being returned. -/
theorem handle_message_exception_escapes :
    (handleMessage [] (fun _ _ _ _ => .error (.rateLimitError .anthropicB))
        ⟨[], []⟩ 1 "U" "hello" 0).reply
      = .error (.rateLimitError .anthropicB) :=
  rfl

/-- C1 amended: the exhausted transient error propagates out of
`handle_message` uncaught; the enclosing Telegram text-message handler's
`except Exception` is what substitutes the fixed apologetic error text, so
no exception reaches the user-facing layer. -/
theorem telegram_wrapper_catches_handle_message_error
    (tools : List ToolSpec) (chatFn : ChatFn) (st0 : MemSt) (uid : Nat)
    (un m : String) (now : Nat) (e : PyExc)
    (h : (handleMessage tools chatFn st0 uid un m now).reply = .error e) :
    telegramReplyOf (handleMessage tools chatFn st0 uid un m now)
      = TELEGRAM_ERROR_TEXT := by
  unfold telegramReplyOf
  rw [h]

/-- Witness for `telegram_wrapper_catches_handle_message_error` on a backend
that keeps rate-limiting. -/
theorem telegram_wrapper_witness :
    telegramReplyOf (handleMessage []
        (fun _ _ _ _ => .error (.rateLimitError .openaiB)) ⟨[], []⟩ 2 "U" "hello" 0)
      = TELEGRAM_ERROR_TEXT :=
  telegram_wrapper_catches_handle_message_error [] _ ⟨[], []⟩ 2 "U" "hello" 0
    (.rateLimitError .openaiB) rfl

/-- A chat call that raises ends the loop at once with the exception. -/
theorem runRounds_first_error
    (chatFn : ChatFn) (tools : List ToolSpec) (research : Bool)
    (uid : Nat) (un m : String) (now : Nat) (fuel rounds : Nat) (retried : Bool)
    (msgs : List ChatMsg) (st : MemSt) (calls : Nat) (executed : List ToolCall)
    (last : Option LLMResponse) (e : PyExc)
    (h : chatFn (rounds + 1) msgs (chatToolsArg tools (rounds + 1))
        (chatForceArg research tools (rounds + 1)) = .error e) :
    runRounds chatFn tools research uid un m now (fuel + 1) rounds retried msgs st
        calls executed last
      = ⟨.raised e, msgs, st, calls + 1, executed, rounds + 1⟩ := by
  simp only [runRounds]
  rw [h]

/-- C2: the chat call of the round loop passes the keyword argument
`force_tool_use`, which neither provider's `chat` (nor the abstract
contract) declares, so for every message that falls through the
confirmation check the call raises `TypeError` before the backend oracle is
ever consulted, and `handle_message` never returns normally on this path. -/
theorem force_tool_use_kwarg_raises_type_error :
    brainChatCallBinds anthropicChatParams = false
    ∧ brainChatCallBinds openaiChatParams = false
    ∧ (∀ (params : List String)
        (oracle oracle2 : Nat → Except PyExc LLMResponse)
        (tools : List ToolSpec) (st0 : MemSt) (uid : Nat) (un m : String)
        (now : Nat) (st1 : MemSt),
        brainChatCallBinds params = false →
        maybeHandleConfirmation tools st0 uid un m now = .fallthrough st1 →
        (handleMessage tools (pyProviderChat params oracle) st0 uid un m now).reply
          = .error (.typeError
              "chat() got an unexpected keyword argument \x27force_tool_use\x27")
        ∧ handleMessage tools (pyProviderChat params oracle) st0 uid un m now
          = handleMessage tools (pyProviderChat params oracle2) st0 uid un m now) := by
  refine ⟨rfl, rfl, ?_⟩
  intro params oracle oracle2 tools st0 uid un m now st1 hbind hfall
  have hchat : ∀ (o : Nat → Except PyExc LLMResponse) (r : Nat) (ms : List ChatMsg)
      (t : Option (List Json)) (f : Bool),
      pyProviderChat params o r ms t f
        = .error (.typeError
            "chat() got an unexpected keyword argument \x27force_tool_use\x27") := by
    intro o r ms t f
    simp [pyProviderChat, hbind]
  have h8 : MAX_TOOL_ROUNDS = 7 + 1 := rfl
  have hlo : ∀ (o : Nat → Except PyExc LLMResponse),
      runRounds (pyProviderChat params o) tools (looksLikeResearchRequest m) uid un m
          now MAX_TOOL_ROUNDS 0 false (buildMessages st1 uid un m) st1 0 [] none
        = ⟨.raised (.typeError
              "chat() got an unexpected keyword argument \x27force_tool_use\x27"),
           buildMessages st1 uid un m, st1, 1, [], 1⟩ := by
    intro o
    rw [h8]
    exact runRounds_first_error _ tools _ uid un m now 7 0 false _ st1 0 [] none _
      (hchat o 1 _ _ _)
  constructor
  · simp only [handleMessage]
    rw [hfall]
    simp [hlo oracle]
  · simp only [handleMessage]
    rw [hfall]
    simp [hlo oracle, hlo oracle2]

/-- Witness for `force_tool_use_kwarg_raises_type_error`: on an empty store
the `TypeError` escapes, and swapping the backend oracle changes nothing —
no backend request is issued. -/
theorem force_tool_use_kwarg_witness :
    (handleMessage [] (pyProviderChat anthropicChatParams
        (fun _ => .ok ⟨some "hello", none⟩)) ⟨[], []⟩ 1 "U" "hi" 0).reply
      = .error (.typeError
          "chat() got an unexpected keyword argument \x27force_tool_use\x27")
    ∧ handleMessage [] (pyProviderChat anthropicChatParams
        (fun _ => .ok ⟨some "hello", none⟩)) ⟨[], []⟩ 1 "U" "hi" 0
      = handleMessage [] (pyProviderChat anthropicChatParams
        (fun _ => .error (.otherError "network unreachable"))) ⟨[], []⟩ 1 "U" "hi" 0 :=
  force_tool_use_kwarg_raises_type_error.2.2 anthropicChatParams _ _ [] ⟨[], []⟩ 1
    "U" "hi" 0 ⟨[], []⟩ rfl rfl

/-- The round loop adds at most `fuel` chat calls to its running counter. -/
theorem runRounds_chatCalls_le (chatFn : ChatFn) (tools : List ToolSpec)
    (research : Bool) (uid : Nat) (un m : String) (now : Nat) :
    ∀ (fuel rounds : Nat) (retried : Bool) (msgs : List ChatMsg) (st : MemSt)
      (calls : Nat) (executed : List ToolCall) (last : Option LLMResponse),
      (runRounds chatFn tools research uid un m now fuel rounds retried msgs st
          calls executed last).chatCalls ≤ calls + fuel := by
  intro fuel
  induction fuel with
  | zero =>
    intro rounds retried msgs st calls executed last
    simp [runRounds]
  | succ n ih =>
    intro rounds retried msgs st calls executed last
    simp only [runRounds]
    cases h : chatFn (rounds + 1) msgs (chatToolsArg tools (rounds + 1))
        (chatForceArg research tools (rounds + 1)) with
    | error e => simp
    | ok resp =>
      by_cases hemp : (respToolCalls resp).isEmpty = true
      · simp only [hemp, if_true]
        by_cases hnudge : (research && !(getAllSchemas tools).isEmpty && !retried
            && decide (rounds + 1 < MAX_TOOL_ROUNDS - 1)) = true
        · simp only [hnudge, if_true]
          calc (runRounds chatFn tools research uid un m now n (rounds + 1) true _ st
                  (calls + 1) executed (some resp)).chatCalls
              ≤ (calls + 1) + n := ih _ _ _ _ _ _ _
            _ = calls + (n + 1) := by omega
        · simp only [hnudge]
          simp
      · simp only [Bool.not_eq_true] at hemp
        simp only [hemp]
        by_cases hconf : ((respToolCalls resp).any fun tc =>
            CONFIRM_TOOLS.contains tc.name) = true
        · simp only [hconf, if_true]
          simp
        · simp only [Bool.not_eq_true] at hconf
          simp only [hconf]
          calc (runRounds chatFn tools research uid un m now n (rounds + 1) retried _
                  st (calls + 1) (executed ++ respToolCalls resp) (some resp)).chatCalls
              ≤ (calls + 1) + n := ih _ _ _ _ _ _ _
            _ = calls + (n + 1) := by omega

/-- When the loop's last response has falsy text, the final reply is the
fixed fallback apology. -/
theorem finalTextOf_falsy (o : Option LLMResponse) (h : respTextFalsy o = true) :
    finalTextOf o = FALLBACK_TEXT := by
  cases o with
  | none => rfl
  | some r =>
    cases ht : r.text with
    | none => simp [finalTextOf, ht]
    | some t =>
      have : t.isEmpty = true := by simpa [respTextFalsy, ht] using h
      simp [finalTextOf, ht, this]

/-- C6: every invocation of `handle_message` makes at most
`_MAX_TOOL_ROUNDS = 8` chat calls; and if the loop runs the full budget and
finishes without a truthy text response, the fixed fallback apology is
returned. -/
theorem round_cap_and_exhaustion_fallback
    (tools : List ToolSpec) (chatFn : ChatFn) (st0 : MemSt) (uid : Nat)
    (un m : String) (now : Nat) :
    (handleMessage tools chatFn st0 uid un m now).chatCalls ≤ MAX_TOOL_ROUNDS
    ∧ (∀ (lo : LoopOut) (last : Option LLMResponse),
        (handleMessage tools chatFn st0 uid un m now).loop = some lo →
        lo.outcome = .finished last →
        lo.rounds = MAX_TOOL_ROUNDS →
        respTextFalsy last = true →
        (handleMessage tools chatFn st0 uid un m now).reply = .ok FALLBACK_TEXT) := by
  constructor
  · simp only [handleMessage]
    cases hc : maybeHandleConfirmation tools st0 uid un m now with
    | handled reply st executed => simp
    | fallthrough st1 =>
      have hcap := runRounds_chatCalls_le chatFn tools
        (looksLikeResearchRequest m) uid un m now MAX_TOOL_ROUNDS 0 false
        (buildMessages st1 uid un m) st1 0 [] none
      simp only [Nat.zero_add] at hcap
      cases ho : (runRounds chatFn tools (looksLikeResearchRequest m) uid un m now
          MAX_TOOL_ROUNDS 0 false (buildMessages st1 uid un m) st1 0 [] none).outcome
        with
      | finished lastr => simpa [ho] using hcap
      | staged reply => simpa [ho] using hcap
      | raised e => simpa [ho] using hcap
  · intro lo last hloop houtcome _hrounds hfalsy
    simp only [handleMessage] at hloop ⊢
    cases hc : maybeHandleConfirmation tools st0 uid un m now with
    | handled reply st executed => rw [hc] at hloop; simp at hloop
    | fallthrough st1 =>
      rw [hc] at hloop
      cases ho : (runRounds chatFn tools (looksLikeResearchRequest m) uid un m now
          MAX_TOOL_ROUNDS 0 false (buildMessages st1 uid un m) st1 0 [] none).outcome
        with
      | finished lastr =>
        simp only [ho] at hloop ⊢
        simp only [Option.some.injEq] at hloop
        have hlast : lastr = last := by
          have := houtcome
          rw [← hloop] at this
          rw [ho] at this
          exact (LoopOutcome.finished.injEq _ _).mp this
        rw [hlast]
        simp [finalTextOf_falsy last hfalsy]
      | staged reply =>
        simp only [ho, Option.some.injEq] at hloop
        rw [← hloop, ho] at houtcome
        simp at houtcome
      | raised e =>
        simp only [ho, Option.some.injEq] at hloop
        rw [← hloop, ho] at houtcome
        simp at houtcome

/-- Witness for `round_cap_and_exhaustion_fallback`: a backend that keeps
requesting an unknown non-sensitive tool exhausts all 8 rounds with no text
and the fixed fallback apology is returned. -/
theorem round_cap_witness :
    (handleMessage [] (fun _ _ _ _ => .ok ⟨none, some [⟨"i", "t", []⟩]⟩)
        ⟨[], []⟩ 1 "U" "m" 0).reply = .ok FALLBACK_TEXT :=
  (round_cap_and_exhaustion_fallback [] (fun _ _ _ _ => .ok ⟨none, some [⟨"i", "t", []⟩]⟩)
      ⟨[], []⟩ 1 "U" "m" 0).2
    (runRounds (fun _ _ _ _ => .ok ⟨none, some [⟨"i", "t", []⟩]⟩) [] false 1 "U" "m" 0
      8 0 false (buildMessages ⟨[], []⟩ 1 "U" "m") ⟨[], []⟩ 0 [] none)
    (some ⟨none, some [⟨"i", "t", []⟩]⟩) rfl rfl rfl rfl

/-- C9: executing a batch never raises to the orchestrator — the registry
returns a string for every call: each call in the batch yields exactly one
result message, computed from that call alone (so one call's failure cannot
affect its siblings); an unknown tool name yields an error string naming the
tool and listing the available names; and a tool whose body raises yields an
error string for that call only. -/
theorem tool_batch_fault_isolation (tools : List ToolSpec) (tcs : List ToolCall) :
    executeToolCalls tools tcs
      = tcs.map (fun tc => ⟨tc.id, registryExecute tools tc.name tc.arguments⟩)
    ∧ (∀ (name : String) (args : List (String × Json)),
        tools.find? (fun t => t.name == name) = none →
        registryExecute tools name args
          = "Error: unknown tool " ++ pyReprStr name ++ ". Available tools: "
              ++ availableNames tools)
    ∧ (∀ (t : ToolSpec) (name : String) (args : List (String × Json)) (e : PyExc),
        tools.find? (fun t2 => t2.name == name) = some t →
        t.impl args = .error e →
        registryExecute tools name args
          = "Error: an unexpected error occurred while running "
              ++ pyReprStr name ++ ".") := by
  refine ⟨?_, ?_, ?_⟩
  · induction tcs with
    | nil => rfl
    | cons tc rest ih => simp [executeToolCalls, ih]
  · intro name args hfind
    simp [registryExecute, hfind]
  · intro t name args e hfind himpl
    simp [registryExecute, hfind, himpl]

/-- Witness for `tool_batch_fault_isolation`: in a three-call batch whose
first tool raises, the failing call is rendered as an error string while the
two sibling calls still execute and contribute their results in order; an
unknown name is reported with the sorted available list. -/
theorem tool_batch_witness :
    registryExecute
        [⟨"a", "", .obj [], fun _ => .error (.otherError "boom")⟩,
         ⟨"b", "", .obj [], fun _ => .ok "okb"⟩,
         ⟨"c", "", .obj [], fun _ => .ok "okc"⟩] "a" []
      = "Error: an unexpected error occurred while running \x27a\x27."
    ∧ executeToolCalls
        [⟨"a", "", .obj [], fun _ => .error (.otherError "boom")⟩,
         ⟨"b", "", .obj [], fun _ => .ok "okb"⟩,
         ⟨"c", "", .obj [], fun _ => .ok "okc"⟩]
        [⟨"1", "a", []⟩, ⟨"2", "b", []⟩, ⟨"3", "c", []⟩]
      = [⟨"1", "Error: an unexpected error occurred while running \x27a\x27."⟩,
         ⟨"2", "okb"⟩, ⟨"3", "okc"⟩]
    ∧ registryExecute
        [⟨"a", "", .obj [], fun _ => .error (.otherError "boom")⟩,
         ⟨"b", "", .obj [], fun _ => .ok "okb"⟩,
         ⟨"c", "", .obj [], fun _ => .ok "okc"⟩] "nosuch" []
      = "Error: unknown tool \x27nosuch\x27. Available tools: a, b, c" :=
  ⟨(tool_batch_fault_isolation
      [⟨"a", "", .obj [], fun _ => .error (.otherError "boom")⟩,
       ⟨"b", "", .obj [], fun _ => .ok "okb"⟩,
       ⟨"c", "", .obj [], fun _ => .ok "okc"⟩] []).2.2
    ⟨"a", "", .obj [], fun _ => .error (.otherError "boom")⟩ "a" []
    (.otherError "boom") rfl rfl,
   rfl,
   by decide⟩

/-- C10 (code bug evaluation): the canonical registry declaration
`{name, description, parameters}` is accepted by both converters without
error, but `AnthropicProvider._convert_tools` returns it verbatim — it never
produces the `input_schema` wire shape its own first branch recognises as
Anthropic-native — whereas `OpenAIProvider._convert_tools` does wrap it into
its `{type, function}` wire shape preserving name, description and schema.
Both converters accept the other backend's native shape, and response
parsing preserves a tool-use block's id, name and arguments verbatim. -/
theorem anthropic_canonical_not_normalized :
    anthropicConvertTool
        [("name", .str "get_time"), ("description", .str "Report the current time"),
         ("parameters", defaultParamsSchema)]
      = .ok [("name", .str "get_time"), ("description", .str "Report the current time"),
             ("parameters", defaultParamsSchema)]
    ∧ isCanonicalDecl
        [("name", .str "get_time"), ("description", .str "Report the current time"),
         ("parameters", defaultParamsSchema)] = true
    ∧ isAnthropicShape
        [("name", .str "get_time"), ("description", .str "Report the current time"),
         ("parameters", defaultParamsSchema)] = false
    ∧ openaiConvertTool
        [("name", .str "get_time"), ("description", .str "Report the current time"),
         ("parameters", defaultParamsSchema)]
      = .ok [("type", .str "function"),
             ("function", .obj
               [("name", .str "get_time"),
                ("description", .str "Report the current time"),
                ("parameters", defaultParamsSchema)])]
    ∧ isOpenAIShape
        [("type", .str "function"),
         ("function", .obj
           [("name", .str "get_time"),
            ("description", .str "Report the current time"),
            ("parameters", defaultParamsSchema)])] = true
    ∧ anthropicConvertTool
        [("type", .str "function"),
         ("function", .obj
           [("name", .str "get_time"),
            ("description", .str "Report the current time"),
            ("parameters", defaultParamsSchema)])]
      = .ok [("name", .str "get_time"),
             ("description", .str "Report the current time"),
             ("input_schema", defaultParamsSchema)]
    ∧ isAnthropicShape
        [("name", .str "get_time"),
         ("description", .str "Report the current time"),
         ("input_schema", defaultParamsSchema)] = true
    ∧ openaiConvertTool
        [("name", .str "get_time"), ("description", .str "Report the current time"),
         ("input_schema", defaultParamsSchema)]
      = .ok [("type", .str "function"),
             ("function", .obj
               [("name", .str "get_time"),
                ("description", .str "Report the current time"),
                ("parameters", defaultParamsSchema)])]
    ∧ anthropicParseToolUse "toolu_1" "get_time" [("tz", .str "UTC")]
      = ⟨"toolu_1", "get_time", [("tz", .str "UTC")]⟩ :=
  ⟨rfl, rfl, rfl, rfl, rfl, rfl, rfl, rfl, rfl⟩

end Nestor
